import Mathlib

/-!
Verification development for the CCode2PDFBot Telegram bot (`src/bot.py`).

The bot's handlers are embedded shallowly: strings are Lean `String`s
(characters restricted to the ASCII behaviour of Python's `str` methods),
the handlers become pure functions over explicit session state, and the
asynchronous event loop is modelled by feeding explicit events (an output
line arriving, a timeout elapsing, a user message) to step functions.
-/

set_option maxRecDepth 100000

/-! ## Python string primitives used by bot.py -/

/-- Characters treated as whitespace by Python's `str.strip()` and by the
`\s` class of the `re` module (ASCII part, plus the C1 control spaces and
NBSP that Python also strips). -/
def isPySpace (c : Char) : Bool :=
  c = ' ' || c = '\t' || c = '\n' || c = '\r' || c = '\x0b' || c = '\x0c' ||
  c = '\x1c' || c = '\x1d' || c = '\x1e' || c = '\x1f' || c = '\x85' || c = '\xa0'

/-- Line-break characters recognised by Python's `str.splitlines()`. -/
def isLineBreak (c : Char) : Bool :=
  c = '\n' || c = '\r' || c = '\x0b' || c = '\x0c' ||
  c = '\x1c' || c = '\x1d' || c = '\x1e' || c = '\x85' ||
  c = '\u2028' || c = '\u2029'

/-- Word characters of the regex class `\w` (ASCII). -/
def isWordChar (c : Char) : Bool :=
  c.isAlpha || c.isDigit || c = '_'

/-- `str.strip()` on a character list: drop leading and trailing whitespace. -/
def stripList (l : List Char) : List Char :=
  ((l.dropWhile isPySpace).reverse.dropWhile isPySpace).reverse

/-- Python `str.strip()`. -/
def pyStrip (s : String) : String := ⟨stripList s.data⟩

/-- Python `str.lower()` (ASCII behaviour). -/
def lowerStr (s : String) : String := ⟨s.data.map Char.toLower⟩

/-- Does `l` start with `n`? (used to model `in` and `endswith`). -/
def startsList : List Char → List Char → Bool
  | [], _ => true
  | _ :: _, [] => false
  | c :: cs, d :: ds => c = d && startsList cs ds

/-- Does `n` occur as a contiguous sublist of `l`?  Models Python's
`n in l` test on strings. -/
def occursIn (n : List Char) : List Char → Bool
  | [] => startsList n []
  | d :: ds => startsList n (d :: ds) || occursIn n ds

/-- Python `needle in hay` on strings. -/
def containsStr (needle hay : String) : Bool := occursIn needle.data hay.data

/-- Python `s.endswith(suf)`. -/
def endsStr (suf s : String) : Bool :=
  startsList suf.data.reverse s.data.reverse

/-! ## Basic lemmas about the string primitives -/

theorem strData_append (s t : String) : (s ++ t).data = s.data ++ t.data := by
  cases s; cases t; rfl

theorem startsList_refl (n : List Char) : startsList n n = true := by
  induction n with
  | nil => rfl
  | cons c cs ih => simp [startsList, ih]

theorem startsList_append (n b : List Char) : startsList n (n ++ b) = true := by
  induction n with
  | nil => cases b <;> rfl
  | cons c cs ih => simp [startsList, ih]

theorem occursIn_of_starts (n l : List Char) (h : startsList n l = true) :
    occursIn n l = true := by
  cases l with
  | nil => exact h
  | cons d ds => show (startsList n (d :: ds) || occursIn n ds) = true; simp [h]

theorem occursIn_append_left (a n l : List Char) (h : occursIn n l = true) :
    occursIn n (a ++ l) = true := by
  induction a with
  | nil => simpa using h
  | cons c a ih =>
      show (startsList n (c :: (a ++ l)) || occursIn n (a ++ l)) = true
      simp [ih]

theorem occursIn_sandwich (a n b : List Char) : occursIn n (a ++ (n ++ b)) = true :=
  occursIn_append_left a n _ (occursIn_of_starts _ _ (startsList_append n b))

theorem occursIn_append_self (a n : List Char) : occursIn n (a ++ n) = true :=
  occursIn_append_left a n _ (occursIn_of_starts _ _ (startsList_refl n))

theorem dropWhile_head_false (p : Char → Bool) :
    ∀ (l : List Char) (x : Char) (xs : List Char),
      l.dropWhile p = x :: xs → p x = false := by
  intro l
  induction l with
  | nil => intro x xs h; simp [List.dropWhile] at h
  | cons c cs ih =>
      intro x xs h
      by_cases hc : p c
      · rw [List.dropWhile_cons_of_pos hc] at h
        exact ih _ _ h
      · rw [List.dropWhile_cons_of_neg hc] at h
        cases h
        simpa using hc

/-- A stripped string never ends in a space, so it never ends in `": "`. -/
theorem pyStrip_not_ends_colon_space (s : String) :
    endsStr ": " (pyStrip s) = false := by
  show startsList (": ".data.reverse) ((stripList s.data).reverse) = false
  have hrev : (stripList s.data).reverse
      = ((s.data.dropWhile isPySpace).reverse).dropWhile isPySpace := by
    simp [stripList]
  rw [hrev]
  cases hD : ((s.data.dropWhile isPySpace).reverse).dropWhile isPySpace with
  | nil => rfl
  | cons x xs =>
      have hx : isPySpace x = false := dropWhile_head_false _ _ _ _ hD
      have hxs : x ≠ ' ' := by
        intro he; rw [he] at hx; simp [isPySpace] at hx
      show ((' ' = x : Bool) && startsList [':'] xs) = false
      simp [Ne.symm hxs]

/-! ## Prompt detector (bot.py line 127) -/

/-- The prompt heuristic applied to a captured stdout line
(`stdout_line.endswith(": ") or "enter" in stdout_line.lower()`). -/
def promptLike (line : String) : Bool :=
  endsStr ": " line || containsStr "enter" (lowerStr line)

/-- C3: the claim says a captured output line is classified as a blocking
prompt iff it ends with a colon-and-space or colon pattern or contains
"enter", and in particular that every line ending in a colon is a prompt.
The captured line `"Result:"` (read as `"Result:\n"` and stripped, bot.py
line 122) ends in a colon yet is not classified as a prompt, because the
code only tests `endswith(": ")` and the marker word. -/
theorem C3_counterexample :
    pyStrip "Result:\n" = "Result:" ∧
    endsStr ":" (pyStrip "Result:\n") = true ∧
    promptLike (pyStrip "Result:\n") = false := by
  refine ⟨by decide, by decide, by decide⟩

/-- C3 (amended): a captured stdout line — which bot.py strips before
classifying — is classified as a blocking prompt iff it contains the
case-insensitive marker "enter"; the `endswith(": ")` clause can never fire
on a stripped line, and a line ending in a bare colon is not a prompt. -/
theorem C3_prompt_detector :
    ∀ raw : String,
      promptLike (pyStrip raw) = containsStr "enter" (lowerStr (pyStrip raw)) := by
  intro raw
  show (endsStr ": " (pyStrip raw) || _) = _
  rw [pyStrip_not_ends_colon_space]
  simp

/-! ## Single-line code reformatting (bot.py lines 52-58)

`handle_code` rewrites a submission that contains no newline through four
`re.sub` passes and a blank-line strip before writing it to `temp.c`.
Each pass is modelled by a matcher that, at a given position, either fails
or returns the replacement text together with the remainder of the input
(with a proof that the remainder is strictly shorter, which makes the
length-fuelled scanner below total and exact). -/

/-- Match a literal character sequence, returning the rest of the input. -/
def eatLit : List Char → List Char → Option (List Char)
  | [], l => some l
  | _ :: _, [] => none
  | c :: cs, d :: ds => if c = d then eatLit cs ds else none

theorem eatLit_length_le :
    ∀ (lit l r : List Char), eatLit lit l = some r → r.length ≤ l.length := by
  intro lit
  induction lit with
  | nil =>
      intro l r h
      simp [eatLit] at h
      subst h; exact Nat.le_refl _
  | cons c cs ih =>
      intro l r h
      cases l with
      | nil => simp [eatLit] at h
      | cons d ds =>
          by_cases hcd : c = d
          · simp [eatLit, hcd] at h
            exact (ih ds r h).trans (Nat.le_succ _)
          · simp [eatLit, hcd] at h

/-- A positional matcher for one `re.sub` pass: given the input at the
current position, either no match, or the replacement text plus the
strictly shorter remainder to continue scanning from. -/
def MatchFun : Type :=
  (l : List Char) → Option (List Char × {r : List Char // r.length < l.length})

/-- Left-to-right, non-overlapping scan of `re.sub`: at each position try
the matcher; on a match emit the replacement and continue after the
consumed text, otherwise keep the character.  Fuelled by the input length,
which always suffices because every match strictly shrinks the input
(see `scanSubF_fuel`). -/
def scanSubF (m : MatchFun) : Nat → List Char → List Char
  | 0, l => l
  | _ + 1, [] => []
  | f + 1, c :: cs =>
    match m (c :: cs) with
    | some (g, ⟨r, _⟩) => g ++ scanSubF m f r
    | none => c :: scanSubF m f cs

/-- One `re.sub` pass over the whole input. -/
def scanSub (m : MatchFun) (l : List Char) : List Char := scanSubF m l.length l

/-- Any two sufficient fuels compute the same result, so the fuel clause
of `scanSubF` is unreachable in `scanSub`. -/
theorem scanSubF_congr (m : MatchFun) :
    ∀ (f₁ f₂ : Nat) (l : List Char), l.length ≤ f₁ → l.length ≤ f₂ →
      scanSubF m f₁ l = scanSubF m f₂ l := by
  intro f₁
  induction f₁ with
  | zero =>
      intro f₂ l h1 h2
      have hl : l = [] := List.eq_nil_of_length_eq_zero (Nat.le_zero.mp h1)
      subst hl
      cases f₂ <;> rfl
  | succ f ih =>
      intro f₂ l h1 h2
      cases l with
      | nil => cases f₂ <;> rfl
      | cons c cs =>
          cases f₂ with
          | zero => simp at h2
          | succ f' =>
              have hcs1 : cs.length ≤ f := by simpa using h1
              have hcs2 : cs.length ≤ f' := by simpa using h2
              simp only [scanSubF]
              cases hm : m (c :: cs) with
              | none =>
                  rw [ih f' cs hcs1 hcs2]
              | some p =>
                  obtain ⟨g, r, hr⟩ := p
                  have hr' : r.length ≤ cs.length := by
                    simpa [Nat.lt_succ_iff] using hr
                  show g ++ scanSubF m f r = g ++ scanSubF m f' r
                  rw [ih f' r (hr'.trans hcs1) (hr'.trans hcs2)]

theorem scanSubF_fuel (m : MatchFun) (f : Nat) (l : List Char)
    (h : l.length ≤ f) : scanSubF m f l = scanSub m l :=
  scanSubF_congr m f l.length l h (Nat.le_refl _)

theorem dropWhileLen_le (p : Char → Bool) :
    ∀ l : List Char, (l.dropWhile p).length ≤ l.length := by
  intro l
  induction l with
  | nil => simp [List.dropWhile]
  | cons c cs ih =>
      by_cases hc : p c
      · rw [List.dropWhile_cons_of_pos hc]
        exact ih.trans (Nat.le_succ _)
      · rw [List.dropWhile_cons_of_neg hc]

/-- Pass 1, `re.sub(r'(#include\s*<\w+\.h>)\s*', r'\1\n', code)`: the
captured directive followed by a newline; the trailing whitespace after
the directive is consumed.  Greedy `\s*` and `\w+` are exact maximal
munches here because the character after each run cannot restart it. -/
def tryInclude : MatchFun := fun l =>
  match h1 : eatLit "#include".data l with
  | none => none
  | some r1 =>
    match h2 : r1.dropWhile isPySpace with
    | '<' :: r3 =>
      match h3 : r3.takeWhile isWordChar with
      | [] => none
      | _ :: _ =>
        match h4 : r3.dropWhile isWordChar with
        | '.' :: 'h' :: '>' :: r5 =>
          some ("#include".data ++ r1.takeWhile isPySpace ++
                  ('<' :: (r3.takeWhile isWordChar ++ ".h>".data)) ++ ['\n'],
            ⟨r5.dropWhile isPySpace, by
              have e1 := eatLit_length_le _ _ _ h1
              have e2 : (r1.dropWhile isPySpace).length = r3.length + 1 := by
                rw [h2]; rfl
              have e2' : (r1.dropWhile isPySpace).length ≤ r1.length :=
                dropWhileLen_le _ _
              have e4 : (r3.dropWhile isWordChar).length = r5.length + 3 := by
                rw [h4]; rfl
              have e4' : (r3.dropWhile isWordChar).length ≤ r3.length :=
                dropWhileLen_le _ _
              have e6 : (r5.dropWhile isPySpace).length ≤ r5.length :=
                dropWhileLen_le _ _
              omega⟩)
        | _ => none
    | _ => none

/-- Pass 2, `re.sub(r'(int\s+main\(\)\s*\{)', r'\n\1', ...)`: a newline is
inserted before the matched `int main() {` text. -/
def tryMain : MatchFun := fun l =>
  match h1 : eatLit "int".data l with
  | none => none
  | some r1 =>
    match h2 : r1.takeWhile isPySpace with
    | [] => none
    | _ :: _ =>
      match h3 : eatLit "main()".data (r1.dropWhile isPySpace) with
      | none => none
      | some r3 =>
        match h4 : r3.dropWhile isPySpace with
        | c :: r5 =>
          if hc : c = '\x7b' then
            some ('\n' :: ("int".data ++ r1.takeWhile isPySpace ++
                    "main()".data ++ r3.takeWhile isPySpace ++ ['\x7b']),
              ⟨r5, by
                have e1 := eatLit_length_le _ _ _ h1
                have e2 : (r1.dropWhile isPySpace).length ≤ r1.length :=
                  dropWhileLen_le _ _
                have e3 := eatLit_length_le _ _ _ h3
                have e4 : (r3.dropWhile isPySpace).length ≤ r3.length :=
                  dropWhileLen_le _ _
                have e5 : (r3.dropWhile isPySpace).length = r5.length + 1 := by
                  rw [h4]; rfl
                omega⟩)
          else none
        | [] => none

/-- Pass 3, `re.sub(r'(\{|\})', r'\1\n', ...)`: a newline after every
brace. -/
def tryBrace : MatchFun := fun l =>
  match l with
  | c :: cs =>
    if c = '\x7b' ∨ c = '\x7d' then
      some ([c, '\n'], ⟨cs, Nat.lt_succ_self _⟩)
    else none
  | [] => none

/-- Pass 4, `re.sub(r'(;\s*)', r';\n', ...)`: a semicolon and any
following whitespace become `;` plus a newline. -/
def trySemi : MatchFun := fun l =>
  match l with
  | ';' :: cs =>
    some ([';', '\n'],
      ⟨cs.dropWhile isPySpace, Nat.lt_succ_of_le (dropWhileLen_le _ _)⟩)
  | _ => none

/-- Python `str.splitlines()` (accumulator holds the current line
reversed); `\r\n` counts as a single break and a terminal break adds no
empty final line. -/
def splitLinesAux : List Char → List Char → List (List Char)
  | acc, [] => if acc = [] then [] else [acc.reverse]
  | acc, '\r' :: '\n' :: cs => acc.reverse :: splitLinesAux [] cs
  | acc, c :: cs =>
    if isLineBreak c then acc.reverse :: splitLinesAux [] cs
    else splitLinesAux (c :: acc) cs

/-- Python `s.splitlines()`. -/
def pySplitlines (s : String) : List String :=
  (splitLinesAux [] s.data).map fun l => ⟨l⟩

/-- The per-line strip and blank-line filter of bot.py line 58
(`line.strip() for line in formatted_code.splitlines() if line.strip()`). -/
def strippedLines (s : String) : List String :=
  ((pySplitlines s).map pyStrip).filter fun l => l ≠ ""

/-- bot.py line 58: `'\n'.join(...)` over the stripped, non-blank lines. -/
def stripJoin (s : String) : String :=
  String.intercalate "\n" (strippedLines s)

/-- The full single-line reformatting pipeline (bot.py lines 54-58). -/
def formatOneLine (code : String) : String :=
  stripJoin ⟨scanSub trySemi (scanSub tryBrace (scanSub tryMain
    (scanSub tryInclude code.data)))⟩

/-- The text written to `temp.c` (bot.py lines 52-63): submissions that
contain a newline are written verbatim, single-line submissions go
through the reformatting pipeline. -/
def formattedCode (code : String) : String :=
  if '\n' ∈ code.data then code else formatOneLine code

/-- C9: the text written to `temp.c` equals the submission exactly when it
contains a newline; a single-line submission instead goes through the
rewriting pipeline, which inserts newlines after `#include` directives,
after every brace and after every semicolon, and strips blank lines (the
concrete run shows all four rewrites; the last conjunct shows the blank
lines produced by the passes are filtered out before joining). -/
theorem C9_single_line_rewrite :
    (∀ code : String, '\n' ∈ code.data → formattedCode code = code) ∧
    (∀ code : String, '\n' ∉ code.data → formattedCode code = formatOneLine code) ∧
    formattedCode "#include <stdio.h> int main() \x7b int x; x = 1; \x7d" =
      "#include <stdio.h>\nint main() \x7b\nint x;\nx = 1;\n\x7d" ∧
    (∀ s : String, ∀ l ∈ strippedLines s, l ≠ "") := by
  refine ⟨?_, ?_, by decide, ?_⟩
  · intro code h
    simp [formattedCode, h]
  · intro code h
    simp [formattedCode, h]
  · intro s l hl
    simpa using (List.mem_filter.mp hl).2

/-- C9 witness: a two-line submission is written verbatim and a one-line
submission is routed through the pipeline. -/
theorem C9_witness :
    formattedCode "int main()\x7b\x7d\nint x;" = "int main()\x7b\x7d\nint x;" ∧
    formattedCode "int y;" = formatOneLine "int y;" :=
  ⟨C9_single_line_rewrite.1 "int main()\x7b\x7d\nint x;" (by decide),
   C9_single_line_rewrite.2.1 "int y;" (by decide)⟩

/-! ## Conversation and session state

`ConversationHandler` states (bot.py line 33) plus the terminal
`ConversationHandler.END` return value. -/

inductive ConvState where
  | CODE
  | RUNNING
  | END
deriving DecidableEq

/-- Result of `subprocess.run(["gcc", "temp.c", "-o", "temp"], ...)`. -/
structure CompileResult where
  returncode : Int
  stdout : String
  stderr : String

/-- Presence on disk of the three files the bot creates.  The names are
process-global constants in bot.py, so one record describes the whole
bot's filesystem footprint. -/
structure Files where
  tempC : Bool
  tempExe : Bool
  outputPdf : Bool
deriving DecidableEq

/-- Per-conversation `context.user_data` as initialised by `handle_code`
(bot.py lines 44-47), plus the log of bytes written to the child's stdin
by `handle_running` (line 189). -/
structure Sess where
  code : String
  output : List String
  errors : List String
  waitingForInput : Bool
  stdinLog : List String
deriving DecidableEq

/-! ## handle_code (bot.py lines 42-103) -/

/-- The failure message of bot.py lines 93-95: the compiler's stderr is
embedded verbatim, with stdout appended when non-empty. -/
def compileErrorMsg (cr : CompileResult) : String :=
  let m := "Compilation Error:\nSTDERR:\n" ++ cr.stderr
  if cr.stdout ≠ "" then m ++ "\nSTDOUT:\n" ++ cr.stdout else m

/-- Everything observable about one run of `handle_code`: the text written
to `temp.c`, which files exist afterwards, whether the child was started,
the outward reply, and the `ConversationHandler` state returned. -/
structure HandleCodeResult where
  wroteSource : String
  filesAfter : Files
  processStarted : Bool
  reply : String
  nextState : ConvState

/-- `handle_code` on a submission `code` whose compilation produced `cr`:
the (possibly reformatted) source is written to `temp.c`; on exit code 0
the executable exists, `./temp` is started and the conversation moves to
RUNNING; otherwise the compiler diagnostics are sent and the handler
returns `ConversationHandler.END` — without invoking `cleanup`, so
`temp.c` is still on disk (bot.py lines 92-98). -/
def handleCode (code : String) (cr : CompileResult) : HandleCodeResult :=
  if cr.returncode = 0 then
    { wroteSource := formattedCode code
      filesAfter := { tempC := true, tempExe := true, outputPdf := false }
      processStarted := true
      reply := "Code compiled successfully! The program is now running. " ++
        "I’ll show prompts as they appear; send input when you see them. " ++
        "Type /cancel to stop."
      nextState := ConvState.RUNNING }
  else
    { wroteSource := formattedCode code
      filesAfter := { tempC := true, tempExe := false, outputPdf := false }
      processStarted := false
      reply := compileErrorMsg cr
      nextState := ConvState.END }

/-- C5: when compilation exits non-zero, the reply sent to the user
contains the compiler's stderr verbatim as a substring, the child process
is never started, and the conversation ends. -/
theorem C5_build_failure_verbatim_stderr :
    ∀ (code : String) (cr : CompileResult), cr.returncode ≠ 0 →
      containsStr cr.stderr (handleCode code cr).reply = true ∧
      (handleCode code cr).processStarted = false ∧
      (handleCode code cr).nextState = ConvState.END := by
  intro code cr h
  have hres : handleCode code cr =
      { wroteSource := formattedCode code
        filesAfter := { tempC := true, tempExe := false, outputPdf := false }
        processStarted := false
        reply := compileErrorMsg cr
        nextState := ConvState.END } := by
    simp [handleCode, h]
  refine ⟨?_, by rw [hres], by rw [hres]⟩
  rw [hres]
  show containsStr cr.stderr (compileErrorMsg cr) = true
  unfold compileErrorMsg containsStr
  by_cases hs : cr.stdout = ""
  · simp only [hs, ne_eq, not_true_eq_false, if_false]
    rw [strData_append]
    exact occursIn_append_self _ _
  · simp only [ne_eq, hs, not_false_eq_true, if_true]
    rw [strData_append, strData_append, strData_append]
    rw [List.append_assoc, List.append_assoc]
    exact occursIn_sandwich _ _ _

/-- C5 witness: a concrete failing compile. -/
theorem C5_witness :
    containsStr "temp.c:1:1: error: expected declaration"
      (handleCode "int main(" ⟨1, "", "temp.c:1:1: error: expected declaration"⟩).reply
        = true ∧
    (handleCode "int main(" ⟨1, "", "temp.c:1:1: error: expected declaration"⟩).processStarted
        = false ∧
    (handleCode "int main(" ⟨1, "", "temp.c:1:1: error: expected declaration"⟩).nextState
        = ConvState.END :=
  C5_build_failure_verbatim_stderr "int main("
    ⟨1, "", "temp.c:1:1: error: expected declaration"⟩ (by decide)

/-! ## cleanup, PDF generation and the terminal paths
(bot.py lines 200-272) -/

/-- File-system effect of `cleanup` (bot.py lines 251-257): each of
`temp.c`, `temp`, `output.pdf` is removed if present, so all three are
absent afterwards. -/
def cleanupFiles (fs : Files) : Files :=
  { tempC := false, tempExe := false, outputPdf := false }

/-- `generate_and_send_pdf` (bot.py lines 200-238): writes `output.pdf`,
sends it, and in its `finally` block always runs `cleanup` — exactly one
cleanup invocation on this path.  The second component counts cleanup
runs. -/
def generateAndSendPdf (fs : Files) (cleanupRuns : Nat) : Files × Nat :=
  (cleanupFiles { fs with outputPdf := true }, cleanupRuns + 1)

/-- The build-failure exit of `handle_code` (bot.py lines 92-98): the
handler replies and returns END; no cleanup call appears on this path. -/
def buildFailureOutcome (code : String) (cr : CompileResult) : Files × Nat :=
  ((handleCode code cr).filesAfter, 0)

/-- The normal exit: the output pump finishes, `generate_and_send_pdf`
runs and its `finally` performs the single cleanup. -/
def successFinishOutcome (code : String) (cr : CompileResult) : Files × Nat :=
  generateAndSendPdf (handleCode code cr).filesAfter 0

/-- `/cancel` (bot.py lines 261-264): reply, then one `cleanup`. -/
def cancelOutcome (code : String) (cr : CompileResult) : Files × Nat :=
  (cleanupFiles (handleCode code cr).filesAfter, 1)

/-- The dispatcher-level fault path, `error_handler` (bot.py lines
266-272): reply, then one `cleanup`.  It runs only for exceptions that
escape a handler into the telegram dispatcher. -/
def errorHandlerOutcome (code : String) (cr : CompileResult) : Files × Nat :=
  (cleanupFiles (handleCode code cr).filesAfter, 1)

/-- The other internal-fault path: `handle_code`'s own `except` branch
(bot.py lines 100-103).  A fault raised inside the handler's try block —
e.g. by `subprocess.run` after `temp.c` has been written on line 63 — is
caught there, reported to the user, and the handler returns
`ConversationHandler.END`.  No cleanup call appears on this path and it
never reaches `error_handler`, so whatever files existed at the fault
point stay on disk.  `atFault` is the file state when the exception was
raised. -/
def handleCodeFaultOutcome (atFault : Files) : Files × Nat :=
  (atFault, 0)

/-- C1: the claim — files absent and cleanup run exactly once on *every*
terminal path — fails on the build-failure path: after a failing compile
the handler returns `ConversationHandler.END` (a terminal state for the
conversation), yet `temp.c` is still on disk and cleanup has run zero
times. -/
theorem C1_counterexample :
    (handleCode "int main(" ⟨1, "", "temp.c:1:1: error"⟩).nextState = ConvState.END ∧
    (buildFailureOutcome "int main(" ⟨1, "", "temp.c:1:1: error"⟩).1.tempC = true ∧
    (buildFailureOutcome "int main(" ⟨1, "", "temp.c:1:1: error"⟩).2 = 0 := by
  refine ⟨by decide, by decide, by decide⟩

/-- C1 (amended): on the success, cancellation and dispatcher-fault
(`error_handler`) paths cleanup runs exactly once and all three files are
absent afterwards; on the build-failure path, and equally on an internal
fault caught by `handle_code`'s own `except` branch, cleanup never runs
and the files present at that point — `temp.c` once it has been written —
remain on disk when the conversation ends. -/
theorem C1_cleanup_per_path :
    ∀ (code : String) (cr : CompileResult) (atFault : Files),
      successFinishOutcome code cr = (⟨false, false, false⟩, 1) ∧
      cancelOutcome code cr = (⟨false, false, false⟩, 1) ∧
      errorHandlerOutcome code cr = (⟨false, false, false⟩, 1) ∧
      handleCodeFaultOutcome atFault = (atFault, 0) ∧
      (cr.returncode ≠ 0 →
        (handleCode code cr).nextState = ConvState.END ∧
        buildFailureOutcome code cr = (⟨true, false, false⟩, 0)) := by
  intro code cr atFault
  refine ⟨rfl, rfl, rfl, rfl, ?_⟩
  intro h
  constructor
  · simp [handleCode, h]
  · simp [buildFailureOutcome, handleCode, h]

/-- C1 witness: the amended statement at a concrete failing compile, with
the `handle_code`-fault conjunct taken at the file state after `temp.c`
was written (a fault in `subprocess.run` leaves it on disk). -/
theorem C1_witness :
    successFinishOutcome "int main(" ⟨1, "", "e"⟩ = (⟨false, false, false⟩, 1) ∧
    cancelOutcome "int main(" ⟨1, "", "e"⟩ = (⟨false, false, false⟩, 1) ∧
    errorHandlerOutcome "int main(" ⟨1, "", "e"⟩ = (⟨false, false, false⟩, 1) ∧
    handleCodeFaultOutcome ⟨true, false, false⟩ = (⟨true, false, false⟩, 0) ∧
    (handleCode "int main(" ⟨1, "", "e"⟩).nextState = ConvState.END ∧
    buildFailureOutcome "int main(" ⟨1, "", "e"⟩ = (⟨true, false, false⟩, 0) := by
  have h := C1_cleanup_per_path "int main(" ⟨1, "", "e"⟩ ⟨true, false, false⟩
  exact ⟨h.1, h.2.1, h.2.2.1, h.2.2.2.1,
    (h.2.2.2.2 (by decide)).1, (h.2.2.2.2 (by decide)).2⟩

/-! ## Per-session file names (bot.py lines 62, 67, 75, 220, 251)

Every path the handlers open is a hard-coded constant — `"temp.c"`,
`"temp"` / `"./temp"`, `"output.pdf"` — with no component derived from the
originating chat, so the functions below ignore their chat-id argument
exactly as the code does. -/

def sessionSourcePath (chatId : Nat) : String := "temp.c"

def sessionExePath (chatId : Nat) : String := "temp"

def sessionPdfPath (chatId : Nat) : String := "output.pdf"

/-- C4: the claim — distinct concurrent sessions use distinct source,
executable and report paths — fails: two different chats get identical
paths for all three files. -/
theorem C4_counterexample :
    (1 : Nat) ≠ 2 ∧
    sessionSourcePath 1 = sessionSourcePath 2 ∧
    sessionExePath 1 = sessionExePath 2 ∧
    sessionPdfPath 1 = sessionPdfPath 2 := by
  refine ⟨by decide, rfl, rfl, rfl⟩

/-- C4 (amended): all sessions share the same three fixed file names
(`temp.c`, `temp`, `output.pdf`); concurrent sessions therefore operate on
shared mutable files and can overwrite each other's artifacts. -/
theorem C4_shared_paths :
    ∀ a b : Nat,
      sessionSourcePath a = sessionSourcePath b ∧
      sessionExePath a = sessionExePath b ∧
      sessionPdfPath a = sessionPdfPath b ∧
      sessionSourcePath a = "temp.c" ∧
      sessionExePath a = "temp" ∧
      sessionPdfPath a = "output.pdf" :=
  fun a b => ⟨rfl, rfl, rfl, rfl, rfl, rfl⟩

/-! ## Child termination in cleanup (bot.py lines 240-249) -/

/-- A live child process, with the modelling assumption of whether it
exits in response to SIGTERM (`process.terminate()`). -/
structure Child where
  alive : Bool
  exitsOnTerm : Bool

/-- Outcome of the process-termination block of `cleanup`. -/
structure TermOutcome where
  terminateCalled : Bool
  killCalled : Bool
  completes : Bool
deriving DecidableEq

/-- The process-termination block of `cleanup` (bot.py lines 241-249):
if the process is alive, `terminate()` is sent and `process.wait()` is
awaited with NO timeout, so `asyncio.TimeoutError` can never be raised
there and the `except` branch that calls `process.kill()` is unreachable;
the await completes only if the child actually exits.  A child that
ignores SIGTERM therefore hangs the cleanup forever and is never killed. -/
def cleanupTerminate (c : Child) : TermOutcome :=
  if c.alive then
    { terminateCalled := true, killCalled := false, completes := c.exitsOnTerm }
  else
    { terminateCalled := false, killCalled := false, completes := true }

/-- C7: against the claim (and the evident intent of the dead
`except asyncio.TimeoutError: process.kill()` branch), a live child that
ignores the graceful termination signal is never force-killed and the
cleanup — hence the cancellation handler — never completes; `kill` is
unreachable on every input. -/
theorem C7_no_kill_escalation :
    cleanupTerminate { alive := true, exitsOnTerm := false } =
      { terminateCalled := true, killCalled := false, completes := false } ∧
    ∀ c : Child, (cleanupTerminate c).killCalled = false := by
  constructor
  · rfl
  · intro c
    by_cases h : c.alive <;> simp [cleanupTerminate, h]

/-! ## The output pump (bot.py lines 105-174)

One iteration of the `while process.returncode is None` loop waits (with
`timeout=10.0`) for a stdout line, a stderr line, or neither.  The three
possibilities are modelled as explicit events; `asyncio.wait`'s bounded
timeout guarantees every iteration receives one of them, so the pump
never blocks indefinitely on a single wait. -/

/-- What `asyncio.wait([stdout_task, stderr_task], timeout=10.0, ...)`
produced: the completed readline results (raw, still carrying their
newline), or silence when `done` is empty; `stillAlive` records the
`process.returncode is not None` re-check of bot.py line 150. -/
inductive PumpEvent where
  | lines (so se : Option String)
  | silence (stillAlive : Bool)

/-- How the iteration left the loop. -/
inductive PumpOut where
  | suspendForInput
  | keepLooping
  | exitLoop
deriving DecidableEq

/-- The stdout branch (bot.py lines 121-132): strip, record and forward a
non-empty line; if it is prompt-like, set `waiting_for_input` and return
from the pump (the `Bool` signals that early return). -/
def pumpStdout (st : Sess) (raw : String) : Sess × Bool :=
  let line := pyStrip raw
  if line ≠ "" then
    let st1 := { st with output := st.output ++ [line] }
    if promptLike line then ({ st1 with waitingForInput := true }, true)
    else (st1, false)
  else (st, false)

/-- The stderr branch (bot.py lines 134-139): strip and record a
non-empty line; no prompt check, no flag, no suspension. -/
def pumpStderr (st : Sess) (raw : String) : Sess :=
  let line := pyStrip raw
  if line ≠ "" then { st with errors := st.errors ++ [line] } else st

/-- One iteration of `read_process_output`'s loop.  On a prompt-like
stdout line the iteration returns before the stderr branch runs (bot.py
line 132); on silence the liveness re-check decides between treating the
silence as an implicit prompt and breaking out to drain and finish
(bot.py lines 148-155). -/
def pumpStep (st : Sess) : PumpEvent → Sess × PumpOut
  | .lines so se =>
    let r1 := match so with
      | some raw => pumpStdout st raw
      | none => (st, false)
    if r1.2 then (r1.1, .suspendForInput)
    else
      match se with
      | some raw => (pumpStderr r1.1 raw, .keepLooping)
      | none => (r1.1, .keepLooping)
  | .silence stillAlive =>
    if stillAlive then ({ st with waitingForInput := true }, .suspendForInput)
    else (st, .exitLoop)

/-- After the loop exits, remaining stream contents are drained (bot.py
lines 163-172) and `generate_and_send_pdf` is called. -/
def drainRemaining (st : Sess) (remOut remErr : String) : Sess :=
  let st1 := if pyStrip remOut ≠ ""
    then { st with output := st.output ++ [pyStrip remOut] } else st
  if pyStrip remErr ≠ ""
    then { st1 with errors := st1.errors ++ [pyStrip remErr] } else st1

/-- C8: a pump iteration that sees no output within the 10-second wait
never hangs: with the child still alive it marks the session as awaiting
input (silence treated as an implicit prompt) and the pump returns; with
the child exited it leaves the loop and proceeds to drain and finish. -/
theorem C8_silence_timeout :
    ∀ st : Sess,
      pumpStep st (.silence true) =
        ({ st with waitingForInput := true }, PumpOut.suspendForInput) ∧
      pumpStep st (.silence false) = (st, PumpOut.exitLoop) :=
  fun st => ⟨rfl, rfl⟩

/-- C10 (amended): a line read from stderr is appended to the error list
when it is non-blank after stripping (blank lines are discarded), is never
prompt-checked — the awaiting-input flag is untouched and the pump keeps
looping even for a stderr line that ends in `": "` or contains "enter" —
and the output list is untouched. -/
theorem C10_stderr_never_prompts :
    ∀ (st : Sess) (raw : String),
      (pumpStep st (.lines none (some raw))).1.waitingForInput = st.waitingForInput ∧
      (pumpStep st (.lines none (some raw))).2 = PumpOut.keepLooping ∧
      (pumpStep st (.lines none (some raw))).1.output = st.output ∧
      (pumpStep st (.lines none (some raw))).1.errors =
        (if pyStrip raw = "" then st.errors else st.errors ++ [pyStrip raw]) ∧
      promptLike (pyStrip "Enter your choice: \n") = true := by
  intro st raw
  refine ⟨?_, ?_, ?_, ?_, by decide⟩ <;>
    · show _ = _
      simp only [pumpStep, pumpStderr]
      by_cases h : pyStrip raw = "" <;> simp [h]

/-- C10 counterexample: the claim says every stderr line is appended to
the error list regardless of content, but a whitespace-only stderr line
(here `" \n"`) strips to empty and is dropped — the error list stays
empty. -/
theorem C10_counterexample :
    (pumpStep ⟨"int main()\x7b\x7d", [], [], false, []⟩
        (.lines none (some " \n"))).1.errors = [] ∧
    (pumpStep ⟨"int main()\x7b\x7d", [], [], false, []⟩
        (.lines none (some " \n"))).1.waitingForInput = false := by
  refine ⟨by decide, by decide⟩

/-! ## handle_running (bot.py lines 176-198) -/

inductive RunRet where
  | RUNNING
  | END
deriving DecidableEq

/-- `handle_running`: with no live process the conversation ends; when the
program is not at a prompt the message is refused; otherwise the text plus
a newline is written to the child's stdin, the flag is cleared and the
pump is restarted.  The user's text is never added to `output` or
`errors`. -/
def handleRunning (st : Sess) (processAlive : Bool) (userInput : String) :
    Sess × RunRet :=
  if processAlive = false then (st, RunRet.END)
  else if st.waitingForInput = false then (st, RunRet.RUNNING)
  else ({ st with stdinLog := st.stdinLog ++ [userInput ++ "\n"]
                  waitingForInput := false }, RunRet.RUNNING)

/-! ## Report assembly (bot.py lines 200-217) -/

def htmlHead : String :=
  "\n        <html>\n        <body>\n            <h1>Source Code</h1>\n            <pre><code>"

def htmlMid1 : String :=
  "</code></pre>\n            <h1>Program Output</h1>\n            <pre>"

def htmlMid2 : String :=
  "</pre>\n            <h1>Errors (if any)</h1>\n            <pre>"

def htmlTail : String :=
  "</pre>\n        </body>\n        </html>\n        "

/-- The f-string of bot.py lines 206-217: the captured output lines and
error lines are joined with newlines and spliced into the fixed HTML
template together with the source text. -/
def htmlContent (code : String) (output errors : List String) : String :=
  htmlHead ++ code ++ htmlMid1 ++ String.intercalate "\n" output ++
    htmlMid2 ++ String.intercalate "\n" errors ++ htmlTail

/-- C6 counterexample: for a session with no captured output and no
errors, the claim expects "no output" / "no errors" placeholders, but the
rendered document contains the empty tag pair `<pre></pre>` and no such
placeholder text anywhere (case-insensitively). -/
theorem C6_counterexample :
    occursIn "<pre></pre>".data (htmlContent "int main()\x7b\x7d" [] []).data = true ∧
    occursIn "no output".data (lowerStr (htmlContent "int main()\x7b\x7d" [] [])).data
      = false ∧
    occursIn "no errors".data (lowerStr (htmlContent "int main()\x7b\x7d" [] [])).data
      = false := by
  refine ⟨by decide, by decide, by decide⟩

/-- C6 (amended): a report assembled from empty output and error lists
splices empty strings into the template, so for every source text the
document contains the empty markup pair `<pre></pre>` — no placeholder is
inserted. -/
theorem C6_empty_sections :
    ∀ code : String,
      occursIn "<pre></pre>".data (htmlContent code [] []).data = true := by
  intro code
  have hd : (htmlContent code [] []).data
      = htmlHead.data ++ (code.data ++
          (htmlMid1.data ++ (htmlMid2.data ++ htmlTail.data))) := by
    show (htmlHead ++ code ++ htmlMid1 ++ String.intercalate "\n" [] ++
        htmlMid2 ++ String.intercalate "\n" [] ++ htmlTail).data = _
    have hnil : String.intercalate "\n" ([] : List String) = "" := rfl
    rw [hnil]
    simp [strData_append, List.append_assoc]
  rw [hd]
  apply occursIn_append_left
  apply occursIn_append_left
  decide

/-! ## The C2 scenario: one prompt, one user input, then exit

The child prints `"Enter a number: "`, the pump detects the prompt and
suspends, the user sends `"5"`, the child then exits without further
output, and the report is assembled. -/

def c2Sess0 : Sess :=
  { code := "int main()\x7b\x7d", output := [], errors := [],
    waitingForInput := false, stdinLog := [] }

def c2AfterPrompt : Sess × PumpOut :=
  pumpStep c2Sess0 (.lines (some "Enter a number: \n") none)

def c2AfterInput : Sess × RunRet :=
  handleRunning c2AfterPrompt.1 true "5"

def c2Final : Sess := drainRemaining c2AfterInput.1 "" ""

def c2Doc : String := htmlContent c2Final.code c2Final.output c2Final.errors

/-- C2 counterexample: in the claim's own example — output
`["Enter a number: "]`, input `["5"]` — the prompt is detected and the
input reaches the child's stdin, but the assembled report never contains
the character `"5"` at all: user input lines are not recorded in the
transcript (and the captured prompt is stored stripped, as
`"Enter a number:"`). -/
theorem C2_counterexample :
    c2AfterPrompt.2 = PumpOut.suspendForInput ∧
    c2Final.output = ["Enter a number:"] ∧
    c2AfterInput.1.stdinLog = ["5\n"] ∧
    occursIn "5".data c2Doc.data = false := by
  refine ⟨by decide, by decide, by decide, by decide⟩

/-- C2 (amended): the report's transcript contains only captured output
(and error) lines; `handle_running` forwards the user's input to the
child's stdin but never adds it to the transcript, so in the example the
document contains the captured prompt but not the answering input. -/
theorem C2_transcript_drops_inputs :
    (∀ (st : Sess) (alive : Bool) (inp : String),
        (handleRunning st alive inp).1.output = st.output ∧
        (handleRunning st alive inp).1.errors = st.errors ∧
        (handleRunning st alive inp).1.code = st.code) ∧
    occursIn "Enter a number:".data c2Doc.data = true ∧
    occursIn "5".data c2Doc.data = false := by
  refine ⟨?_, by decide, by decide⟩
  intro st alive inp
  refine ⟨?_, ?_, ?_⟩ <;>
    · unfold handleRunning
      by_cases h1 : alive = false
      · simp [h1]
      · by_cases h2 : st.waitingForInput = false <;> simp [h1, h2]
